import Mathlib

/-!
Verification of the tf2 stamped-value conversion layer
(`tf2/include/tf2/transform_datatypes.h`).

The numeric components of messages and math types (C++ `double` /
`btScalar`) are modelled as real numbers; `ros::Time` is modelled as a
natural number and `std::string` as `String`.  Functions that may emit the
diagnostic warning `ROS_WARN(...)` are modelled as returning a pair of
their result and the number of warnings emitted; functions whose bodies
contain no `ROS_WARN` call return a warning count of `0` (or just their
result when no claim concerns their warnings).  All C++ functions here
take their output by reference and never mutate their input (which is
passed by const reference), so each is embedded as a pure function from
input to output.
-/

namespace tf2

/-- Embeds `static const double QUATERNION_TOLERANCE = 0.1f;`
(`transform_datatypes.h` line 59).  The float literal is idealized as the
real number 0.1, consistently with idealizing all floating-point
arithmetic as real arithmetic. -/
def QUATERNION_TOLERANCE : ℝ := 0.1

/-- The math-library quaternion `btQuaternion` (aliased `tf2::Quaternion`
at line 49): four scalar components x, y, z, w. -/
structure Quaternion where
  x : ℝ
  y : ℝ
  z : ℝ
  w : ℝ

/-- The math-library vector `btVector3` (aliased `tf2::Vector3` at line 51
and `tf2::Point` at line 53): three scalar components. -/
structure Vector3 where
  x : ℝ
  y : ℝ
  z : ℝ

/-- `tf2::Point` is the same type as `tf2::Vector3` (typedef at line 53). -/
abbrev Point := Vector3

/-- `btQuaternion::length2()`: the squared length x²+y²+z²+w². -/
def Quaternion.length2 (q : Quaternion) : ℝ :=
  q.x * q.x + q.y * q.y + q.z * q.z + q.w * q.w

/-- `btQuaternion::length()`: the square root of `length2`. -/
noncomputable def Quaternion.length (q : Quaternion) : ℝ :=
  Real.sqrt q.length2

/-- `btQuaternion::normalize()`: divide every component by the length.
(In C++ this rescales in place; our embedding returns the rescaled
quaternion.) -/
noncomputable def Quaternion.normalize (q : Quaternion) : Quaternion :=
  ⟨q.x / q.length, q.y / q.length, q.z / q.length, q.w / q.length⟩

/-- Wire message `geometry_msgs::Quaternion`: fields x, y, z, w. -/
structure QuaternionMsg where
  x : ℝ
  y : ℝ
  z : ℝ
  w : ℝ

/-- Wire message `geometry_msgs::Vector3`: fields x, y, z. -/
structure Vector3Msg where
  x : ℝ
  y : ℝ
  z : ℝ

/-- Wire message `geometry_msgs::Point`: fields x, y, z. -/
structure PointMsg where
  x : ℝ
  y : ℝ
  z : ℝ

/-- Wire message header `std_msgs::Header`: a timestamp and a frame id. -/
structure Header where
  stamp : ℕ
  frame_id : String

/-- Wire message `geometry_msgs::QuaternionStamped`. -/
structure QuaternionStampedMsg where
  header : Header
  quaternion : QuaternionMsg

/-- Wire message `geometry_msgs::Vector3Stamped`. -/
structure Vector3StampedMsg where
  header : Header
  vector : Vector3Msg

/-- Wire message `geometry_msgs::PointStamped`. -/
structure PointStampedMsg where
  header : Header
  point : PointMsg

/-- Wire message `geometry_msgs::Transform`: a translation and a rotation. -/
structure TransformMsg where
  translation : Vector3Msg
  rotation : QuaternionMsg

/-- Wire message `geometry_msgs::TransformStamped`. -/
structure TransformStampedMsg where
  header : Header
  child_frame_id : String
  transform : TransformMsg

/-- Wire message `geometry_msgs::Pose`: a position and an orientation. -/
structure PoseMsg where
  position : PointMsg
  orientation : QuaternionMsg

/-- Wire message `geometry_msgs::PoseStamped`. -/
structure PoseStampedMsg where
  header : Header
  pose : PoseMsg

/-- The math-library rigid transform `btTransform` (aliased
`tf2::Transform` at line 55 and `tf2::Pose` at line 57).  The C++ type
stores the rotation as a 3×3 basis matrix built from the quaternion given
to the constructor (`btTransform(const btQuaternion&, const btVector3&)`)
and `getRotation()` recovers that quaternion; we model the rotation
directly by the quaternion handed to the constructor, abstracting the
matrix encode/decode round trip. -/
structure Transform where
  rotation : Quaternion
  origin : Vector3

/-- `tf2::Pose` is the same type as `tf2::Transform` (typedef at line 57). -/
abbrev Pose := Transform

/-- `btTransform::getRotation()`. -/
def Transform.getRotation (t : Transform) : Quaternion := t.rotation

/-- `btTransform::getOrigin()`. -/
def Transform.getOrigin (t : Transform) : Vector3 := t.origin

/-- The generic stamped wrapper `tf2::Stamped<T>` (lines 63–78): in C++ it
derives from `T` and adds `stamp_` and `frame_id_`; we model the `T`
subobject as the field `val`. -/
structure Stamped (T : Type) where
  val : T
  stamp_ : ℕ
  frame_id_ : String

/-- The default constructor `Stamped() : frame_id_
("NO_ID_STAMPED_DEFAULT_CONSTRUCTION") {}` (line 70).  The `T` subobject
is default-constructed in C++, which for the math types leaves its fields
indeterminate; the embedding takes that indeterminate payload as the
parameter `v`.  `ros::Time`'s default constructor yields time zero. -/
def stampedDefault {T : Type} (v : T) : Stamped T :=
  { val := v, stamp_ := 0, frame_id_ := "NO_ID_STAMPED_DEFAULT_CONSTRUCTION" }

/-- The comparison `operator==(const Stamped<T>&, const Stamped<T>&)`
(lines 81–84): frame ids equal, stamps equal, and the underlying `T`
values equal. -/
def stampedEq {T : Type} (a b : Stamped T) : Prop :=
  a.frame_id_ = b.frame_id_ ∧ a.stamp_ = b.stamp_ ∧ a.val = b.val

/-- The stamped transform type `tf2::StampedTransform` (lines 88–103): a
transform plus a timestamp, a frame id and a child frame id. -/
structure StampedTransform where
  transform : Transform
  stamp_ : ℕ
  frame_id_ : String
  child_frame_id_ : String

/-- The default constructor `StampedTransform() { }` (line 98): the string
members are default-constructed to empty strings, the stamp to time zero,
and the inherited `btTransform` is left indeterminate; the embedding takes
that indeterminate payload as the parameter `t`. -/
def stampedTransformDefault (t : Transform) : StampedTransform :=
  { transform := t, stamp_ := 0, frame_id_ := "", child_frame_id_ := "" }

/-- `quaternionMsgToTF2` (lines 112–120): build the quaternion from the
message fields; if the squared length deviates from 1 by more than
`QUATERNION_TOLERANCE`, warn once and normalize.  The second component
counts emitted `ROS_WARN` messages. -/
noncomputable def quaternionMsgToTF2 (msg : QuaternionMsg) : Quaternion × ℕ :=
  let bt : Quaternion := ⟨msg.x, msg.y, msg.z, msg.w⟩
  if |bt.length2 - 1| > QUATERNION_TOLERANCE then
    (bt.normalize, 1)
  else
    (bt, 0)

/-- `quaternionTF2ToMsg` (lines 122–135): if the squared length deviates
from 1 by more than `QUATERNION_TOLERANCE`, warn once and write the fields
of a normalized copy `bt_temp` into the message; otherwise copy the four
fields unchanged. -/
noncomputable def quaternionTF2ToMsg (bt : Quaternion) : QuaternionMsg × ℕ :=
  if |bt.length2 - 1| > QUATERNION_TOLERANCE then
    let bt_temp := bt.normalize
    (⟨bt_temp.x, bt_temp.y, bt_temp.z, bt_temp.w⟩, 1)
  else
    (⟨bt.x, bt.y, bt.z, bt.w⟩, 0)

/-- `vector3MsgToTF2` (line 215): direct field copy. -/
def vector3MsgToTF2 (msg_v : Vector3Msg) : Vector3 :=
  ⟨msg_v.x, msg_v.y, msg_v.z⟩

/-- `vector3TF2ToMsg` (line 217): direct field copy. -/
def vector3TF2ToMsg (bt_v : Vector3) : Vector3Msg :=
  ⟨bt_v.x, bt_v.y, bt_v.z⟩

/-- `pointMsgToTF2` (line 228): direct field copy. -/
def pointMsgToTF2 (msg_v : PointMsg) : Point :=
  ⟨msg_v.x, msg_v.y, msg_v.z⟩

/-- `pointTF2ToMsg` (line 230): direct field copy. -/
def pointTF2ToMsg (bt_v : Point) : PointMsg :=
  ⟨bt_v.x, bt_v.y, bt_v.z⟩

/-- `transformMsgToTF2` (lines 241–242): construct the transform from the
message's rotation and translation fields.  The body contains no
tolerance check and no `ROS_WARN`, so the warning count is 0. -/
def transformMsgToTF2 (msg : TransformMsg) : Transform × ℕ :=
  (⟨⟨msg.rotation.x, msg.rotation.y, msg.rotation.z, msg.rotation.w⟩,
    ⟨msg.translation.x, msg.translation.y, msg.translation.z⟩⟩, 0)

/-- `transformTF2ToMsg` (lines 244–245): decompose into translation and
rotation; the rotation goes through `quaternionTF2ToMsg`, which may warn. -/
noncomputable def transformTF2ToMsg (bt : Transform) : TransformMsg × ℕ :=
  let tr := vector3TF2ToMsg bt.getOrigin
  let rq := quaternionTF2ToMsg bt.getRotation
  (⟨tr, rq.1⟩, rq.2)

/-- `poseMsgToTF2` (lines 255–256): construct the pose from the message's
orientation and position fields.  The body contains no tolerance check
and no `ROS_WARN`, so the warning count is 0. -/
def poseMsgToTF2 (msg : PoseMsg) : Pose × ℕ :=
  (⟨⟨msg.orientation.x, msg.orientation.y, msg.orientation.z, msg.orientation.w⟩,
    ⟨msg.position.x, msg.position.y, msg.position.z⟩⟩, 0)

/-- `poseTF2ToMsg` (lines 258–259): decompose into position and
orientation; the orientation goes through `quaternionTF2ToMsg`. -/
noncomputable def poseTF2ToMsg (bt : Pose) : PoseMsg × ℕ :=
  let pos := pointTF2ToMsg bt.getOrigin
  let rq := quaternionTF2ToMsg bt.getRotation
  (⟨⟨pos.x, pos.y, pos.z⟩, rq.1⟩, rq.2)

/-- `quaternionStampedMsgToTF2` (lines 208–209): delegate to
`quaternionMsgToTF2` on the payload, then copy stamp and frame id. -/
noncomputable def quaternionStampedMsgToTF2 (msg : QuaternionStampedMsg) :
    Stamped Quaternion × ℕ :=
  let q := quaternionMsgToTF2 msg.quaternion
  (⟨q.1, msg.header.stamp, msg.header.frame_id⟩, q.2)

/-- `quaternionStampedTF2ToMsg` (lines 211–212): delegate to
`quaternionTF2ToMsg` on the payload, then copy stamp and frame id. -/
noncomputable def quaternionStampedTF2ToMsg (bt : Stamped Quaternion) :
    QuaternionStampedMsg × ℕ :=
  let q := quaternionTF2ToMsg bt.val
  (⟨⟨bt.stamp_, bt.frame_id_⟩, q.1⟩, q.2)

/-- `vector3StampedMsgToTF2` (lines 220–221). -/
def vector3StampedMsgToTF2 (msg : Vector3StampedMsg) : Stamped Vector3 :=
  ⟨vector3MsgToTF2 msg.vector, msg.header.stamp, msg.header.frame_id⟩

/-- `vector3StampedTF2ToMsg` (lines 223–224). -/
def vector3StampedTF2ToMsg (bt : Stamped Vector3) : Vector3StampedMsg :=
  ⟨⟨bt.stamp_, bt.frame_id_⟩, vector3TF2ToMsg bt.val⟩

/-- `pointStampedMsgToTF2` (lines 233–234). -/
def pointStampedMsgToTF2 (msg : PointStampedMsg) : Stamped Point :=
  ⟨pointMsgToTF2 msg.point, msg.header.stamp, msg.header.frame_id⟩

/-- `pointStampedTF2ToMsg` (lines 236–237). -/
def pointStampedTF2ToMsg (bt : Stamped Point) : PointStampedMsg :=
  ⟨⟨bt.stamp_, bt.frame_id_⟩, pointTF2ToMsg bt.val⟩

/-- `transformStampedMsgToTF2` (lines 248–249): delegate to
`transformMsgToTF2`, then copy stamp, frame id and child frame id. -/
def transformStampedMsgToTF2 (msg : TransformStampedMsg) :
    StampedTransform × ℕ :=
  let t := transformMsgToTF2 msg.transform
  (⟨t.1, msg.header.stamp, msg.header.frame_id, msg.child_frame_id⟩, t.2)

/-- `transformStampedTF2ToMsg` (lines 251–252): delegate to
`transformTF2ToMsg`, then copy stamp, frame id and child frame id. -/
noncomputable def transformStampedTF2ToMsg (bt : StampedTransform) :
    TransformStampedMsg × ℕ :=
  let t := transformTF2ToMsg bt.transform
  (⟨⟨bt.stamp_, bt.frame_id_⟩, bt.child_frame_id_, t.1⟩, t.2)

/-- `poseStampedMsgToTF2` (lines 262–263). -/
def poseStampedMsgToTF2 (msg : PoseStampedMsg) : Stamped Pose × ℕ :=
  let p := poseMsgToTF2 msg.pose
  (⟨p.1, msg.header.stamp, msg.header.frame_id⟩, p.2)

/-- `poseStampedTF2ToMsg` (lines 265–266). -/
noncomputable def poseStampedTF2ToMsg (bt : Stamped Pose) : PoseStampedMsg × ℕ :=
  let p := poseTF2ToMsg bt.val
  (⟨⟨bt.stamp_, bt.frame_id_⟩, p.1⟩, p.2)

/-- Modelled from the spec: the vendored math library
(`LinearMath/btTransform.h`, not under `src/`) provides quaternion
construction from Euler angles; per the spec, "Build a Quaternion from
roll/pitch/yaw (Euler angles, intrinsic XYZ convention assumed by the
underlying math library)".  This is `btQuaternion::setRPY`, the standard
half-angle product formula. -/
noncomputable def Quaternion.setRPY (roll pitch yaw : ℝ) : Quaternion :=
  let halfYaw := yaw * (1 / 2)
  let halfPitch := pitch * (1 / 2)
  let halfRoll := roll * (1 / 2)
  let cosYaw := Real.cos halfYaw
  let sinYaw := Real.sin halfYaw
  let cosPitch := Real.cos halfPitch
  let sinPitch := Real.sin halfPitch
  let cosRoll := Real.cos halfRoll
  let sinRoll := Real.sin halfRoll
  ⟨sinRoll * cosPitch * cosYaw - cosRoll * sinPitch * sinYaw,
   cosRoll * sinPitch * cosYaw + sinRoll * cosPitch * sinYaw,
   cosRoll * cosPitch * sinYaw - sinRoll * sinPitch * cosYaw,
   cosRoll * cosPitch * cosYaw + sinRoll * sinPitch * sinYaw⟩

/-- Modelled from the spec: two-argument arctangent, the primitive that
the math library's rotation-matrix routines use to recover Euler angles.
`atan2 y x` is the angle of the point (x, y). -/
noncomputable def atan2 (y x : ℝ) : ℝ :=
  if 0 < x then Real.arctan (y / x)
  else if x < 0 then
    (if 0 ≤ y then Real.arctan (y / x) + Real.pi
     else Real.arctan (y / x) - Real.pi)
  else
    (if 0 < y then Real.pi / 2
     else if y < 0 then -(Real.pi / 2)
     else 0)

/-- Modelled from the spec: the yaw component of the roll/pitch/yaw
decomposition `btMatrix3x3(q).getRPY(...)` (the matrix routine lives in
the vendored `LinearMath`, not under `src/`).  Per the spec, yaw is the
"rotation angle about the vertical axis, extracted from a quaternion's
equivalent Euler-angle decomposition": the arctangent of the rotation
matrix entries m10 and m00, written directly in terms of the quaternion
components. -/
noncomputable def Quaternion.rpyYaw (q : Quaternion) : ℝ :=
  atan2 (2 * (q.w * q.z + q.x * q.y)) (1 - 2 * (q.y * q.y + q.z * q.z))

/-- `getYaw(const Quaternion&)` (lines 138–142): decompose via the
rotation-matrix roll/pitch/yaw extraction and return only the yaw. -/
noncomputable def getYaw (bt_q : Quaternion) : ℝ :=
  bt_q.rpyYaw

/-- `createQuaternionFromRPY` (lines 157–161). -/
noncomputable def createQuaternionFromRPY (roll pitch yaw : ℝ) : Quaternion :=
  Quaternion.setRPY roll pitch yaw

/-- `createQuaternionFromYaw` (lines 167–171): `setRPY(0.0, 0.0, yaw)`. -/
noncomputable def createQuaternionFromYaw (yaw : ℝ) : Quaternion :=
  Quaternion.setRPY 0 0 yaw

/-- `createIdentityQuaternion` (lines 200–205): `setRPY(0,0,0)`. -/
noncomputable def createIdentityQuaternion : Quaternion :=
  Quaternion.setRPY 0 0 0

/-- Modelled from the spec: the math library's quaternion (Hamilton)
product `btQuaternion::operator*` (vendored `LinearMath`, not under
`src/`), required to state what it means to rotate a vector by a
quaternion. -/
def Quaternion.mul (p q : Quaternion) : Quaternion :=
  ⟨p.w * q.x + p.x * q.w + p.y * q.z - p.z * q.y,
   p.w * q.y + p.y * q.w + p.z * q.x - p.x * q.z,
   p.w * q.z + p.z * q.w + p.x * q.y - p.y * q.x,
   p.w * q.w - p.x * q.x - p.y * q.y - p.z * q.z⟩

/-- Modelled from the spec: `btQuaternion::inverse()` (vendored
`LinearMath`, not under `src/`), the conjugate quaternion. -/
def Quaternion.inverse (q : Quaternion) : Quaternion :=
  ⟨-q.x, -q.y, -q.z, q.w⟩

/-- Modelled from the spec: `quatRotate` (vendored `LinearMath`, not
under `src/`), rotation of a vector by a quaternion: embed the vector as
a quaternion with zero scalar part, conjugate by `q`, and read back the
vector components. -/
def quatRotate (q : Quaternion) (v : Vector3) : Vector3 :=
  let r := Quaternion.mul (Quaternion.mul q ⟨v.x, v.y, v.z, 0⟩) q.inverse
  ⟨r.x, r.y, r.z⟩

/-- A squared length is a sum of squares, hence nonnegative. -/
lemma length2_nonneg (q : Quaternion) : 0 ≤ q.length2 := by
  unfold Quaternion.length2
  nlinarith [mul_self_nonneg q.x, mul_self_nonneg q.y,
    mul_self_nonneg q.z, mul_self_nonneg q.w]

/-- Normalizing a quaternion of nonzero squared length yields a quaternion
of squared length exactly 1. -/
lemma normalize_length2 (q : Quaternion) (h : q.length2 ≠ 0) :
    q.normalize.length2 = 1 := by
  have h0 : 0 ≤ q.length2 := length2_nonneg q
  have hpos : 0 < q.length2 := h0.lt_of_ne (Ne.symm h)
  have hs : Real.sqrt q.length2 ≠ 0 := ne_of_gt (Real.sqrt_pos.mpr hpos)
  have hss : Real.sqrt q.length2 * Real.sqrt q.length2 = q.length2 :=
    Real.mul_self_sqrt h0
  have hexp : q.normalize.length2 =
      q.length2 / (Real.sqrt q.length2 * Real.sqrt q.length2) := by
    rw [show q.normalize.length2 =
        q.x / Real.sqrt q.length2 * (q.x / Real.sqrt q.length2) +
        q.y / Real.sqrt q.length2 * (q.y / Real.sqrt q.length2) +
        q.z / Real.sqrt q.length2 * (q.z / Real.sqrt q.length2) +
        q.w / Real.sqrt q.length2 * (q.w / Real.sqrt q.length2) from rfl]
    rw [show q.length2 = q.x * q.x + q.y * q.y + q.z * q.z + q.w * q.w from rfl]
    field_simp
  rw [hexp, hss]
  exact div_self h

/-- C4: converting a Vector3 message (resp. Point message) to the math
type with `vector3MsgToTF2` (resp. `pointMsgToTF2`) and back with
`vector3TF2ToMsg` (resp. `pointTF2ToMsg`) reproduces the original x, y, z
fields exactly; no transformation is applied. -/
theorem vector3_point_msg_roundtrip_exact (v : Vector3Msg) (p : PointMsg) :
    vector3TF2ToMsg (vector3MsgToTF2 v) = v ∧
    pointTF2ToMsg (pointMsgToTF2 p) = p :=
  ⟨rfl, rfl⟩

/-- C6: the comparison operator on `Stamped<Point>` holds precisely when
frame id, stamp and underlying point value all agree, which is precisely
structural equality of the two stamped values; differing in any one field
therefore makes them unequal. -/
theorem stamped_point_eq_iff (a b : Stamped Point) :
    (stampedEq a b ↔
      (a.frame_id_ = b.frame_id_ ∧ a.stamp_ = b.stamp_ ∧ a.val = b.val)) ∧
    (stampedEq a b ↔ a = b) := by
  refine ⟨Iff.rfl, ?_⟩
  cases a
  cases b
  simp [stampedEq]
  tauto

/-- C10: a default-constructed `Stamped<T>` carries the sentinel frame id
"NO_ID_STAMPED_DEFAULT_CONSTRUCTION", while a default-constructed
`StampedTransform` leaves both frame id and child frame id empty; the two
default constructions disagree on the frame id. -/
theorem default_construction_frame_ids (v : Point) (t : Transform) :
    (stampedDefault v).frame_id_ = "NO_ID_STAMPED_DEFAULT_CONSTRUCTION" ∧
    (stampedTransformDefault t).frame_id_ = "" ∧
    (stampedTransformDefault t).child_frame_id_ = "" ∧
    (stampedDefault v).frame_id_ ≠ (stampedTransformDefault t).frame_id_ :=
  ⟨rfl, rfl, rfl, by
    show ("NO_ID_STAMPED_DEFAULT_CONSTRUCTION" : String) ≠ ""
    decide⟩

/-- C7: every stamped conversion is its unstamped conversion on the value
payload followed by a copy of the header's timestamp and frame id, and the
`StampedTransform` conversions additionally copy the child frame id in
both directions. -/
theorem stamped_conversions_delegate
    (qm : QuaternionStampedMsg) (vm : Vector3StampedMsg)
    (pm : PointStampedMsg) (tm : TransformStampedMsg) (om : PoseStampedMsg)
    (qb : Stamped Quaternion) (vb : Stamped Vector3) (pb : Stamped Point)
    (tb : StampedTransform) (ob : Stamped Pose) :
    ((quaternionStampedMsgToTF2 qm).1.val = (quaternionMsgToTF2 qm.quaternion).1 ∧
      (quaternionStampedMsgToTF2 qm).1.stamp_ = qm.header.stamp ∧
      (quaternionStampedMsgToTF2 qm).1.frame_id_ = qm.header.frame_id) ∧
    ((quaternionStampedTF2ToMsg qb).1.quaternion = (quaternionTF2ToMsg qb.val).1 ∧
      (quaternionStampedTF2ToMsg qb).1.header.stamp = qb.stamp_ ∧
      (quaternionStampedTF2ToMsg qb).1.header.frame_id = qb.frame_id_) ∧
    ((vector3StampedMsgToTF2 vm).val = vector3MsgToTF2 vm.vector ∧
      (vector3StampedMsgToTF2 vm).stamp_ = vm.header.stamp ∧
      (vector3StampedMsgToTF2 vm).frame_id_ = vm.header.frame_id) ∧
    ((vector3StampedTF2ToMsg vb).vector = vector3TF2ToMsg vb.val ∧
      (vector3StampedTF2ToMsg vb).header.stamp = vb.stamp_ ∧
      (vector3StampedTF2ToMsg vb).header.frame_id = vb.frame_id_) ∧
    ((pointStampedMsgToTF2 pm).val = pointMsgToTF2 pm.point ∧
      (pointStampedMsgToTF2 pm).stamp_ = pm.header.stamp ∧
      (pointStampedMsgToTF2 pm).frame_id_ = pm.header.frame_id) ∧
    ((pointStampedTF2ToMsg pb).point = pointTF2ToMsg pb.val ∧
      (pointStampedTF2ToMsg pb).header.stamp = pb.stamp_ ∧
      (pointStampedTF2ToMsg pb).header.frame_id = pb.frame_id_) ∧
    ((transformStampedMsgToTF2 tm).1.transform = (transformMsgToTF2 tm.transform).1 ∧
      (transformStampedMsgToTF2 tm).1.stamp_ = tm.header.stamp ∧
      (transformStampedMsgToTF2 tm).1.frame_id_ = tm.header.frame_id ∧
      (transformStampedMsgToTF2 tm).1.child_frame_id_ = tm.child_frame_id) ∧
    ((transformStampedTF2ToMsg tb).1.transform = (transformTF2ToMsg tb.transform).1 ∧
      (transformStampedTF2ToMsg tb).1.header.stamp = tb.stamp_ ∧
      (transformStampedTF2ToMsg tb).1.header.frame_id = tb.frame_id_ ∧
      (transformStampedTF2ToMsg tb).1.child_frame_id = tb.child_frame_id_) ∧
    ((poseStampedMsgToTF2 om).1.val = (poseMsgToTF2 om.pose).1 ∧
      (poseStampedMsgToTF2 om).1.stamp_ = om.header.stamp ∧
      (poseStampedMsgToTF2 om).1.frame_id_ = om.header.frame_id) ∧
    ((poseStampedTF2ToMsg ob).1.pose = (poseTF2ToMsg ob.val).1 ∧
      (poseStampedTF2ToMsg ob).1.header.stamp = ob.stamp_ ∧
      (poseStampedTF2ToMsg ob).1.header.frame_id = ob.frame_id_) :=
  ⟨⟨rfl, rfl, rfl⟩, ⟨rfl, rfl, rfl⟩, ⟨rfl, rfl, rfl⟩, ⟨rfl, rfl, rfl⟩,
   ⟨rfl, rfl, rfl⟩, ⟨rfl, rfl, rfl⟩, ⟨rfl, rfl, rfl, rfl⟩,
   ⟨rfl, rfl, rfl, rfl⟩, ⟨rfl, rfl, rfl⟩, ⟨rfl, rfl, rfl⟩⟩

/-- C3: `quaternionTF2ToMsg` on a quaternion whose squared length
deviates from 1 by more than the tolerance emits one warning and writes
the fields of a renormalized copy into the message; otherwise it emits no
warning and copies the four fields x, y, z, w unchanged.  (The input is
passed by const reference in C++ and never written, which the pure
embedding reflects by construction.) -/
theorem quaternionTF2ToMsg_branches (bt : Quaternion) :
    (|bt.length2 - 1| > QUATERNION_TOLERANCE →
      quaternionTF2ToMsg bt =
        (⟨bt.normalize.x, bt.normalize.y, bt.normalize.z, bt.normalize.w⟩, 1)) ∧
    (¬ |bt.length2 - 1| > QUATERNION_TOLERANCE →
      quaternionTF2ToMsg bt = (⟨bt.x, bt.y, bt.z, bt.w⟩, 0)) := by
  constructor <;> intro h <;> simp [quaternionTF2ToMsg, h]

/-- Witness for C3: the deviation branch at the quaternion (1,1,0,0) and
the copy branch at the unit quaternion (0,0,0,1). -/
theorem quaternionTF2ToMsg_branches_witness :
    (|Quaternion.length2 ⟨1, 1, 0, 0⟩ - 1| > QUATERNION_TOLERANCE ∧
      quaternionTF2ToMsg ⟨1, 1, 0, 0⟩ =
        (⟨1 / Real.sqrt 2, 1 / Real.sqrt 2, 0, 0⟩, 1)) ∧
    (¬ |Quaternion.length2 ⟨0, 0, 0, 1⟩ - 1| > QUATERNION_TOLERANCE ∧
      quaternionTF2ToMsg ⟨0, 0, 0, 1⟩ = (⟨0, 0, 0, 1⟩, 0)) := by
  have h1 : |Quaternion.length2 ⟨1, 1, 0, 0⟩ - 1| > QUATERNION_TOLERANCE := by
    norm_num [Quaternion.length2, QUATERNION_TOLERANCE]
  have h2 : ¬ |Quaternion.length2 ⟨0, 0, 0, 1⟩ - 1| > QUATERNION_TOLERANCE := by
    norm_num [Quaternion.length2, QUATERNION_TOLERANCE]
  have e1 := (quaternionTF2ToMsg_branches ⟨1, 1, 0, 0⟩).1 h1
  have e2 := (quaternionTF2ToMsg_branches ⟨0, 0, 0, 1⟩).2 h2
  refine ⟨⟨h1, ?_⟩, ⟨h2, e2⟩⟩
  rw [e1]
  norm_num [Quaternion.normalize, Quaternion.length, Quaternion.length2]

/-- C5: when the message's squared length is within the tolerance of 1,
`quaternionMsgToTF2` takes no normalization branch, and converting back
with `quaternionTF2ToMsg` reproduces the original fields exactly with no
warning from either direction. -/
theorem quaternion_msg_roundtrip (msg : QuaternionMsg)
    (h : |Quaternion.length2 ⟨msg.x, msg.y, msg.z, msg.w⟩ - 1| ≤
      QUATERNION_TOLERANCE) :
    (quaternionTF2ToMsg (quaternionMsgToTF2 msg).1).1 = msg ∧
    (quaternionMsgToTF2 msg).2 = 0 ∧
    (quaternionTF2ToMsg (quaternionMsgToTF2 msg).1).2 = 0 := by
  have h' : ¬ |Quaternion.length2 ⟨msg.x, msg.y, msg.z, msg.w⟩ - 1| >
      QUATERNION_TOLERANCE := not_lt.mpr h
  simp [quaternionMsgToTF2, quaternionTF2ToMsg, h']

/-- Witness for C5: the unit-quaternion message (0,0,0,1) round-trips
exactly with no warnings. -/
theorem quaternion_msg_roundtrip_witness :
    (quaternionTF2ToMsg (quaternionMsgToTF2 ⟨0, 0, 0, 1⟩).1).1 =
      (⟨0, 0, 0, 1⟩ : QuaternionMsg) ∧
    (quaternionMsgToTF2 ⟨0, 0, 0, 1⟩).2 = 0 ∧
    (quaternionTF2ToMsg (quaternionMsgToTF2 ⟨0, 0, 0, 1⟩).1).2 = 0 :=
  quaternion_msg_roundtrip ⟨0, 0, 0, 1⟩
    (by norm_num [Quaternion.length2, QUATERNION_TOLERANCE])

/-- Counterexample for C1: the zero-quaternion message (0,0,0,0) has
squared length 0, deviating from 1 by more than the tolerance, and
`quaternionMsgToTF2` does emit exactly one warning there, but the result
is the zero quaternion (division by a zero length), not a unit-norm
quaternion, so the claim as stated fails at this input. -/
theorem quaternionMsgToTF2_zero_counterexample :
    |Quaternion.length2 ⟨0, 0, 0, 0⟩ - 1| > QUATERNION_TOLERANCE ∧
    (quaternionMsgToTF2 ⟨0, 0, 0, 0⟩).2 = 1 ∧
    Quaternion.length2 (quaternionMsgToTF2 ⟨0, 0, 0, 0⟩).1 ≠ 1 := by
  have h : |Quaternion.length2 ⟨0, 0, 0, 0⟩ - 1| > QUATERNION_TOLERANCE := by
    norm_num [Quaternion.length2, QUATERNION_TOLERANCE]
  refine ⟨h, ?_, ?_⟩ <;>
    norm_num [quaternionMsgToTF2, QUATERNION_TOLERANCE, Quaternion.normalize,
      Quaternion.length, Quaternion.length2, Real.sqrt_zero]

/-- C1 (amended): for every quaternion message of nonzero squared length
whose squared length deviates from 1 by more than the tolerance,
`quaternionMsgToTF2` emits exactly one warning and produces a unit-norm
quaternion. -/
theorem quaternionMsgToTF2_normalizes (msg : QuaternionMsg)
    (hdev : |Quaternion.length2 ⟨msg.x, msg.y, msg.z, msg.w⟩ - 1| >
      QUATERNION_TOLERANCE)
    (hnz : Quaternion.length2 ⟨msg.x, msg.y, msg.z, msg.w⟩ ≠ 0) :
    (quaternionMsgToTF2 msg).2 = 1 ∧
    Quaternion.length2 (quaternionMsgToTF2 msg).1 = 1 := by
  constructor
  · simp [quaternionMsgToTF2, hdev]
  · simp only [quaternionMsgToTF2, hdev, gt_iff_lt, if_pos]
    exact normalize_length2 _ hnz

/-- Witness for amended C1: the message x=1, y=1, z=0, w=0 of squared
length 2 triggers exactly one warning and yields a unit-norm result. -/
theorem quaternionMsgToTF2_normalizes_witness :
    (|Quaternion.length2 ⟨1, 1, 0, 0⟩ - 1| > QUATERNION_TOLERANCE ∧
      Quaternion.length2 ⟨1, 1, 0, 0⟩ ≠ 0) ∧
    ((quaternionMsgToTF2 ⟨1, 1, 0, 0⟩).2 = 1 ∧
      Quaternion.length2 (quaternionMsgToTF2 ⟨1, 1, 0, 0⟩).1 = 1) :=
  ⟨⟨by norm_num [Quaternion.length2, QUATERNION_TOLERANCE],
    by norm_num [Quaternion.length2]⟩,
   quaternionMsgToTF2_normalizes ⟨1, 1, 0, 0⟩
     (by norm_num [Quaternion.length2, QUATERNION_TOLERANCE])
     (by norm_num [Quaternion.length2])⟩

/-- Counterexample for C2: a transform message whose rotation (1,1,0,0)
has squared length 2 — deviating from 1 by more than the tolerance — is
converted by `transformMsgToTF2` with zero warnings, and a pose message
with the same orientation is converted by `poseMsgToTF2` with zero
warnings; neither detects the deviation, contradicting the claim that
every conversion accepting quaternion components logs a warning. -/
theorem transform_pose_msg_no_warning_counterexample :
    |Quaternion.length2 ⟨1, 1, 0, 0⟩ - 1| > QUATERNION_TOLERANCE ∧
    (transformMsgToTF2 ⟨⟨0, 0, 0⟩, ⟨1, 1, 0, 0⟩⟩).2 = 0 ∧
    (transformMsgToTF2 ⟨⟨0, 0, 0⟩, ⟨1, 1, 0, 0⟩⟩).1.rotation = ⟨1, 1, 0, 0⟩ ∧
    (poseMsgToTF2 ⟨⟨0, 0, 0⟩, ⟨1, 1, 0, 0⟩⟩).2 = 0 ∧
    (poseMsgToTF2 ⟨⟨0, 0, 0⟩, ⟨1, 1, 0, 0⟩⟩).1.rotation = ⟨1, 1, 0, 0⟩ :=
  ⟨by norm_num [Quaternion.length2, QUATERNION_TOLERANCE], rfl, rfl, rfl, rfl⟩

/-- C2 (amended): only the dedicated quaternion conversions detect a
squared-length deviation greater than the tolerance, log a warning and
renormalize; `transformMsgToTF2` and `poseMsgToTF2` hand the quaternion
components to the transform constructor with no deviation check and no
warning. -/
theorem quaternion_check_only_in_dedicated_conversions
    (tmsg : TransformMsg) (pmsg : PoseMsg) (qmsg : QuaternionMsg)
    (h : |Quaternion.length2 ⟨qmsg.x, qmsg.y, qmsg.z, qmsg.w⟩ - 1| >
      QUATERNION_TOLERANCE) :
    (transformMsgToTF2 tmsg).2 = 0 ∧
    (transformMsgToTF2 tmsg).1.rotation =
      ⟨tmsg.rotation.x, tmsg.rotation.y, tmsg.rotation.z, tmsg.rotation.w⟩ ∧
    (poseMsgToTF2 pmsg).2 = 0 ∧
    (poseMsgToTF2 pmsg).1.rotation =
      ⟨pmsg.orientation.x, pmsg.orientation.y, pmsg.orientation.z,
        pmsg.orientation.w⟩ ∧
    (quaternionMsgToTF2 qmsg).2 = 1 ∧
    (quaternionMsgToTF2 qmsg).1 =
      Quaternion.normalize ⟨qmsg.x, qmsg.y, qmsg.z, qmsg.w⟩ ∧
    (quaternionTF2ToMsg ⟨qmsg.x, qmsg.y, qmsg.z, qmsg.w⟩).2 = 1 := by
  refine ⟨rfl, rfl, rfl, rfl, ?_, ?_, ?_⟩ <;>
    simp [quaternionMsgToTF2, quaternionTF2ToMsg, h]

/-- Witness for amended C2: concrete transform, pose and quaternion
messages, the latter with rotation (1,1,0,0) of squared length 2. -/
theorem quaternion_check_only_in_dedicated_conversions_witness :
    (|Quaternion.length2 ⟨1, 1, 0, 0⟩ - 1| > QUATERNION_TOLERANCE) ∧
    ((transformMsgToTF2 ⟨⟨1, 2, 3⟩, ⟨1, 1, 0, 0⟩⟩).2 = 0 ∧
      (transformMsgToTF2 ⟨⟨1, 2, 3⟩, ⟨1, 1, 0, 0⟩⟩).1.rotation = ⟨1, 1, 0, 0⟩ ∧
      (poseMsgToTF2 ⟨⟨1, 2, 3⟩, ⟨1, 1, 0, 0⟩⟩).2 = 0 ∧
      (poseMsgToTF2 ⟨⟨1, 2, 3⟩, ⟨1, 1, 0, 0⟩⟩).1.rotation = ⟨1, 1, 0, 0⟩ ∧
      (quaternionMsgToTF2 ⟨1, 1, 0, 0⟩).2 = 1 ∧
      (quaternionMsgToTF2 ⟨1, 1, 0, 0⟩).1 =
        Quaternion.normalize ⟨1, 1, 0, 0⟩ ∧
      (quaternionTF2ToMsg ⟨1, 1, 0, 0⟩).2 = 1) :=
  ⟨by norm_num [Quaternion.length2, QUATERNION_TOLERANCE],
   quaternion_check_only_in_dedicated_conversions ⟨⟨1, 2, 3⟩, ⟨1, 1, 0, 0⟩⟩
     ⟨⟨1, 2, 3⟩, ⟨1, 1, 0, 0⟩⟩ ⟨1, 1, 0, 0⟩
     (by norm_num [Quaternion.length2, QUATERNION_TOLERANCE])⟩

/-- C8: extracting the yaw of the quaternion built by
`createQuaternionFromYaw` at π/2 gives back π/2 within 1e-6 (here the
recovery is exact). -/
theorem yaw_roundtrip_pi_div_two :
    |getYaw (createQuaternionFromYaw (Real.pi / 2)) - Real.pi / 2| ≤ 1e-6 := by
  have hq : createQuaternionFromYaw (Real.pi / 2) =
      ⟨0, 0, Real.sqrt 2 / 2, Real.sqrt 2 / 2⟩ := by
    unfold createQuaternionFromYaw Quaternion.setRPY
    have hsin : Real.sin (Real.pi / 2 * (2 : ℝ)⁻¹) = Real.sqrt 2 / 2 := by
      rw [show Real.pi / 2 * (2 : ℝ)⁻¹ = Real.pi / 4 by ring]
      exact Real.sin_pi_div_four
    have hcos : Real.cos (Real.pi / 2 * (2 : ℝ)⁻¹) = Real.sqrt 2 / 2 := by
      rw [show Real.pi / 2 * (2 : ℝ)⁻¹ = Real.pi / 4 by ring]
      exact Real.cos_pi_div_four
    simp [hsin, hcos]
  have hs : Real.sqrt 2 * Real.sqrt 2 = 2 := Real.mul_self_sqrt (by norm_num)
  have hnum : 2 * ((Real.sqrt 2 / 2) * (Real.sqrt 2 / 2) + 0 * 0) = 1 := by
    nlinarith [hs]
  have hden : 1 - 2 * (0 * 0 + (Real.sqrt 2 / 2) * (Real.sqrt 2 / 2)) = 0 := by
    nlinarith [hs]
  have hyaw : getYaw (createQuaternionFromYaw (Real.pi / 2)) = Real.pi / 2 := by
    rw [hq]
    show atan2 (2 * ((Real.sqrt 2 / 2) * (Real.sqrt 2 / 2) + 0 * 0))
      (1 - 2 * (0 * 0 + (Real.sqrt 2 / 2) * (Real.sqrt 2 / 2))) = Real.pi / 2
    rw [hnum, hden]
    unfold atan2
    norm_num
  rw [hyaw]
  norm_num

/-- C9: the quaternion built by `createIdentityQuaternion` is the zero
rotation: rotating any vector by it returns the vector unchanged. -/
theorem identity_quaternion_rotation_fixes_vectors (v : Vector3) :
    quatRotate createIdentityQuaternion v = v := by
  have hid : createIdentityQuaternion = ⟨0, 0, 0, 1⟩ := by
    unfold createIdentityQuaternion Quaternion.setRPY
    norm_num
  rw [hid]
  simp [quatRotate, Quaternion.mul, Quaternion.inverse]

end tf2
